import Mathlib

/-!
Shallow embedding of the CoinClash serverless game backend
(`netlify/functions/play.js`) and proofs of the specification claims.

Modelling conventions:
* JavaScript byte strings are `List Nat` (one entry per byte, each < 256 for
  real data); `String` inputs are converted with `strBytes` (the concrete
  seeds used here are ASCII, where UTF-8 agrees with `Char.toNat`).
* JavaScript numbers are modelled as exact rationals `ℚ`; a field that is
  absent, not a number, or `NaN` is `Option.none`.
* The mutable process state (`NONCE_COUNTER`, `rateLimitStore`) is threaded
  explicitly through the handler.
-/

namespace CoinClash

/-! ### SHA-256 (crypto primitive used by `crypto.createHash('sha256')` and
`crypto.createHmac('sha256', key)`) -/

/-- The SHA-256 word modulus, 2^32. -/
def M32 : Nat := 4294967296

/-- Rotate a 32-bit word right by `k` bits. -/
def rotr (k x : Nat) : Nat := ((x >>> k) ||| (x <<< (32 - k))) &&& 4294967295

def shaCh (x y z : Nat) : Nat := (x &&& y) ^^^ ((x ^^^ 4294967295) &&& z)

def shaMaj (x y z : Nat) : Nat := (x &&& y) ^^^ (x &&& z) ^^^ (y &&& z)

def sSig0 (x : Nat) : Nat := rotr 7 x ^^^ rotr 18 x ^^^ (x >>> 3)

def sSig1 (x : Nat) : Nat := rotr 17 x ^^^ rotr 19 x ^^^ (x >>> 10)

def bSig0 (x : Nat) : Nat := rotr 2 x ^^^ rotr 13 x ^^^ rotr 22 x

def bSig1 (x : Nat) : Nat := rotr 6 x ^^^ rotr 11 x ^^^ rotr 25 x

/-- The 64 SHA-256 round constants, in decimal. -/
def sha256K : List Nat :=
  [1116352408, 1899447441, 3049323471, 3921009573, 961987163,
   1508970993, 2453635748, 2870763221, 3624381080, 310598401,
   607225278, 1426881987, 1925078388, 2162078206, 2614888103,
   3248222580, 3835390401, 4022224774, 264347078, 604807628,
   770255983, 1249150122, 1555081692, 1996064986, 2554220882,
   2821834349, 2952996808, 3210313671, 3336571891, 3584528711,
   113926993, 338241895, 666307205, 773529912, 1294757372,
   1396182291, 1695183700, 1986661051, 2177026350, 2456956037,
   2730485921, 2820302411, 3259730800, 3345764771, 3516065817,
   3600352804, 4094571909, 275423344, 430227734, 506948616,
   659060556, 883997877, 958139571, 1322822218, 1537002063,
   1747873779, 1955562222, 2024104815, 2227730452, 2361852424,
   2428436474, 2756734187, 3204031479, 3329325298]

/-- Working state of the compression function. -/
structure Hash8 where
  a : Nat
  b : Nat
  c : Nat
  d : Nat
  e : Nat
  f : Nat
  g : Nat
  h : Nat
deriving DecidableEq, Repr

/-- Initial SHA-256 hash value, in decimal. -/
def initH : Hash8 :=
  ⟨1779033703, 3144134277, 1013904242, 2773480762,
   1359893119, 2600822924, 528734635, 1541459225⟩

/-- Pack four big-endian bytes into a 32-bit word. -/
def wordOfBytes (a b c d : Nat) : Nat := (a <<< 24) ||| (b <<< 16) ||| (c <<< 8) ||| d

/-- Split a byte list into big-endian 32-bit words (fuelled recursion). -/
def toWords : Nat → List Nat → List Nat
  | 0, _ => []
  | _ + 1, a :: b :: c :: d :: rest => wordOfBytes a b c d :: toWords rest.length rest
  | _ + 1, _ => []

/-- One message-schedule extension step; the schedule list is kept newest-first. -/
def schedStep (w : List Nat) : List Nat :=
  ((sSig1 (w.getD 1 0) + w.getD 6 0 + sSig0 (w.getD 14 0) + w.getD 15 0) % M32) :: w

/-- Iterate a list transformer `n` times. -/
def iterN (f : List Nat → List Nat) : Nat → List Nat → List Nat
  | 0, w => w
  | n + 1, w => iterN f n (f w)

/-- The 64-word message schedule of one 64-byte block. -/
def schedule (block : List Nat) : List Nat :=
  (iterN schedStep 48 (toWords block.length block).reverse).reverse

/-- One compression round with round constant `k` and schedule word `w`. -/
def shaRound (k w : Nat) (s : Hash8) : Hash8 :=
  let t1 := (s.h + bSig1 s.e + shaCh s.e s.f s.g + k + w) % M32
  let t2 := (bSig0 s.a + shaMaj s.a s.b s.c) % M32
  ⟨(t1 + t2) % M32, s.a, s.b, s.c, (s.d + t1) % M32, s.e, s.f, s.g⟩

/-- Run the 64 rounds over the zipped (constant, schedule-word) list. -/
def shaRounds : List (Nat × Nat) → Hash8 → Hash8
  | [], s => s
  | p :: rest, s => shaRounds rest (shaRound p.1 p.2 s)

/-- Compress one 64-byte block into the running hash state. -/
def compress (s : Hash8) (block : List Nat) : Hash8 :=
  let t := shaRounds (sha256K.zip (schedule block)) s
  ⟨(s.a + t.a) % M32, (s.b + t.b) % M32, (s.c + t.c) % M32, (s.d + t.d) % M32,
   (s.e + t.e) % M32, (s.f + t.f) % M32, (s.g + t.g) % M32, (s.h + t.h) % M32⟩

/-- Fold the compression function over all blocks. -/
def shaBlocks : List (List Nat) → Hash8 → Hash8
  | [], s => s
  | b :: bs, s => shaBlocks bs (compress s b)

/-- Cut a padded message into 64-byte blocks (fuelled recursion). -/
def toBlocks : Nat → List Nat → List (List Nat)
  | 0, _ => []
  | _ + 1, [] => []
  | fuel + 1, bs => bs.take 64 :: toBlocks fuel (bs.drop 64)

/-- The 8-byte big-endian encoding of the bit length. -/
def lenBytes (n : Nat) : List Nat :=
  [(n >>> 56) % 256, (n >>> 48) % 256, (n >>> 40) % 256, (n >>> 32) % 256,
   (n >>> 24) % 256, (n >>> 16) % 256, (n >>> 8) % 256, n % 256]

/-- Padding of SHA-256: `0x80`, zeros to 56 mod 64, then the 64-bit bit length. -/
def padMsg (msg : List Nat) : List Nat :=
  msg ++ [128] ++ List.replicate ((119 - msg.length % 64) % 64) 0
      ++ lenBytes (msg.length * 8)

/-- Serialize a 32-bit word to four big-endian bytes. -/
def wordBytes (w : Nat) : List Nat :=
  [(w >>> 24) % 256, (w >>> 16) % 256, (w >>> 8) % 256, w % 256]

/-- Digest of a byte list under SHA-256, as a 32-byte list. -/
def sha256 (msg : List Nat) : List Nat :=
  let padded := padMsg msg
  let s := shaBlocks (toBlocks padded.length padded) initH
  wordBytes s.a ++ wordBytes s.b ++ wordBytes s.c ++ wordBytes s.d ++
  wordBytes s.e ++ wordBytes s.f ++ wordBytes s.g ++ wordBytes s.h

/-- Keyed HMAC-SHA256 with byte-list key and message. -/
def hmacSha256 (key msg : List Nat) : List Nat :=
  let k0 := if 64 < key.length then sha256 key else key
  let kpad := k0 ++ List.replicate (64 - k0.length) 0
  let ipadded := kpad.map (fun b => b ^^^ 54)
  let opadded := kpad.map (fun b => b ^^^ 92)
  sha256 (opadded ++ sha256 (ipadded ++ msg))

/-! ### Hex encoding / parsing and string helpers -/

/-- Lower-case hex digit character for a value `d < 16`
(Node's `digest('hex')` is lower-case). -/
def hexChar (d : Nat) : Char := if d < 10 then Char.ofNat (48 + d) else Char.ofNat (87 + d)

/-- Hex-encode a byte list, two characters per byte. -/
def hexEncode : List Nat → List Char
  | [] => []
  | b :: rest => hexChar (b / 16) :: hexChar (b % 16) :: hexEncode rest

/-- Value of a (lower-case) hex digit character. -/
def hexVal (c : Char) : Nat := if c.toNat ≤ 57 then c.toNat - 48 else c.toNat - 87

/-- JavaScript `parseInt(s, 16)` on a list of valid hex characters. -/
def parseHex (cs : List Char) : Nat := cs.foldl (fun a c => a * 16 + hexVal c) 0

/-- Big-endian value of a byte list (the spec's "read as a big-endian
unsigned integer"). -/
def beVal (bs : List Nat) : Nat := bs.foldl (fun a b => a * 256 + b) 0

/-- Decimal digit bytes of a natural number (fuelled recursion). -/
def natDecAux : Nat → Nat → List Nat
  | 0, _ => []
  | fuel + 1, n => if n < 10 then [48 + n] else natDecAux fuel (n / 10) ++ [48 + n % 10]

/-- ASCII bytes of the decimal representation of `n`
(JavaScript template interpolation of a number). -/
def natDecBytes (n : Nat) : List Nat := natDecAux (n + 1) n

/-- Bytes of an ASCII string (agrees with UTF-8 on ASCII input). -/
def strBytes (s : String) : List Nat := s.data.map Char.toNat

/-! ### The RNG of `play.js` -/

/-- The function `generateRandom01(serverSeed, clientSeed, nonce)` of `play.js`:
HMAC-SHA256 over `` `${clientSeed}:${nonce}` ``, hex digest, first 16 hex
characters parsed with `parseInt(·, 16)`, divided by `16 ** 16`.
Numbers are modelled as exact rationals. -/
def generateRandom01 (serverSeed clientSeed : List Nat) (nonce : Nat) : ℚ :=
  let message := clientSeed ++ [58] ++ natDecBytes nonce
  let digest := hmacSha256 serverSeed message
  let first8Bytes := (hexEncode digest).take 16
  let asInt := parseHex first8Bytes
  (asInt : ℚ) / ((16 : ℚ) ^ 16)

/-- Modelled from the spec (§4.A): `roll(server_seed, client_seed, nonce)`
— `msg = client_seed || ":" || decimal(nonce)`, `d = HMAC-SHA256(server_seed,
msg)`, the first 8 bytes of `d` as a big-endian unsigned integer `u`,
returning `u / 2^64`.  Stated separately from `generateRandom01` so the two
constructions can be compared. -/
def specRoll (serverSeed clientSeed : List Nat) (nonce : Nat) : ℚ :=
  let msg := clientSeed ++ [58] ++ natDecBytes nonce
  let d := hmacSha256 serverSeed msg
  let u := beVal (d.take 8)
  (u : ℚ) / ((2 : ℚ) ^ 64)

/-- The function `getServerSeedHash(serverSeed)`: SHA-256 hex digest of the server seed. -/
def getServerSeedHash (serverSeed : String) : String :=
  String.mk (hexEncode (sha256 (strBytes serverSeed)))

/-! ### Rate limiter -/

def RATE_LIMIT_WINDOW : Nat := 2000

def RATE_LIMIT_MAX : Nat := 5

/-- The `rateLimitStore` map, as an association list from client id to the
list of recorded request timestamps (oldest first). -/
abbrev Store := List (String × List Nat)

def lookupStore (store : Store) (cid : String) : Option (List Nat) :=
  (store.find? (fun p => p.1 = cid)).map Prod.snd

def insertStore (store : Store) (cid : String) (v : List Nat) : Store :=
  match store with
  | [] => [(cid, v)]
  | p :: rest => if p.1 = cid then (cid, v) :: rest else p :: insertStore rest cid v

/-- The function `checkRateLimit(clientId)` of `play.js`, with the store and clock
explicit.  Returns the allow/deny verdict and the updated store: prune the
bucket to timestamps with `now - time < RATE_LIMIT_WINDOW`; if at least
`RATE_LIMIT_MAX` remain, deny and leave the store untouched; otherwise
append `now` and allow. -/
def checkRateLimit (store : Store) (clientId : String) (now : Nat) : Bool × Store :=
  let requests := (lookupStore store clientId).getD []
  let recentRequests := requests.filter (fun time => now - time < RATE_LIMIT_WINDOW)
  if RATE_LIMIT_MAX ≤ recentRequests.length then
    (false, store)
  else
    (true, insertStore store clientId (recentRequests ++ [now]))

/-! ### Client id derivation -/

/-- Characters before the first comma (`forwarded.split(',')[0]`). -/
def firstField : List Char → List Char
  | [] => []
  | c :: rest => if c = ',' then [] else c :: firstField rest

/-- JavaScript string trim, restricted to ASCII spaces. -/
def trimChars (cs : List Char) : List Char :=
  ((cs.dropWhile (fun c => c = ' ')).reverse.dropWhile (fun c => c = ' ')).reverse

/-- Fallback client id used when neither header is present. -/
def unknownId : String := "unknown"

/-- The function `getClientId(event)`: first entry of `x-forwarded-for` trimmed, else the
`client-ip` header, else `"unknown"`. -/
def getClientId (forwardedFor clientIp : Option String) : String :=
  match forwardedFor with
  | some fwd => String.mk (trimChars (firstField fwd.data))
  | none => clientIp.getD unknownId

/-! ### Request / response / state model -/

/-- JS literal `0.98`, as an exact rational. -/
def RTP : ℚ := 98 / 100

/-- JS literal `0.10`, as an exact rational. -/
def MIN_BET : ℚ := 10 / 100

/-- JS literal `20000.00`. -/
def MAX_BET : ℚ := 20000

/-- JS literal `1.96`, as an exact rational. -/
def MIN_MULTIPLIER : ℚ := 196 / 100

/-- JS literal `10.00`. -/
def MAX_MULTIPLIER : ℚ := 10

/-- Parsed JSON request body.  A numeric field that is absent, of the wrong
type, or `NaN` is `none`; `mode` is carried (the spec's contract names it)
even though `play.js` never reads it. -/
structure Req where
  mode : Option String
  bet : Option ℚ
  multiplier : Option ℚ
  player_choice : Option String
  client_seed : Option String
deriving DecidableEq, Repr

/-- The JSON body of a 200 response (lines 197–207 of `play.js`). -/
structure BetResult where
  did_win : Bool
  roll_won : Bool
  choice_matched : Bool
  payout : ℚ
  roll : ℚ
  win_chance : ℚ
  server_seed_hash : String
  nonce : Nat
  coin_side : String
deriving DecidableEq, Repr

/-- Outcome of one handler invocation: the CORS pre-flight 200, an error
response `{detail}` with its status code, or a 200 game response. -/
inductive HandlerOut where
  | preflight : HandlerOut
  | error (statusCode : Nat) (detail : String) : HandlerOut
  | success (body : BetResult) : HandlerOut
deriving DecidableEq, Repr

/-- Mutable process state of `play.js`: `NONCE_COUNTER` and `rateLimitStore`. -/
structure PState where
  nonceCounter : Nat
  store : Store
deriving DecidableEq, Repr

/-- One incoming HTTP event: method, the two client-identifying headers, the
current clock, and the parsed body (`none` when `JSON.parse` throws). -/
structure Event where
  httpMethod : String
  forwardedFor : Option String
  clientIp : Option String
  now : Nat
  body : Option Req
deriving Repr

/-- JavaScript `Math.round(x * 100) / 100` (`Math.round` is
`⌊x + 1/2⌋`). -/
def round2 (x : ℚ) : ℚ := ((⌊x * 100 + 1 / 2⌋ : ℤ) : ℚ) / 100

/-- The default `SERVER_SEED` placeholder of `play.js` (used when the
environment variable is absent). -/
def SERVER_SEED : String := "super_secret_server_seed_change_me"

/-! ### The handler, staged in source order -/

/-- JavaScript stringification of `undefined`, as produced by template
interpolation of an absent `client_seed`. -/
def undefinedStr : String := "undefined"

/-- Lines 178–208 of `play.js`: the game computation once every validation
has passed (the comparison constant in the source is the JS literal `0.5`). -/
def playStage (serverSeed : String) (bet multiplier : ℚ) (playerChoice : String)
    (clientSeed : Option String) (nonce : Nat) : HandlerOut :=
  let winChance := RTP / multiplier
  let roll := generateRandom01 (strBytes serverSeed)
      (strBytes (clientSeed.getD undefinedStr)) nonce
  let coinSide := if roll < 1 / 2 then "heads" else "tails"
  let rollWon := decide (roll < winChance)
  let choiceMatched := coinSide == playerChoice
  let didWin := rollWon && choiceMatched
  let payout := if didWin then bet * multiplier else 0
  HandlerOut.success
    { did_win := didWin
      roll_won := rollWon
      choice_matched := choiceMatched
      payout := round2 payout
      roll := roll
      win_chance := winChance
      server_seed_hash := getServerSeedHash serverSeed
      nonce := nonce
      coin_side := coinSide }

/-- Lines 165–176 of `play.js`: `player_choice` defaulting (`|| "heads"`,
so an empty string also defaults) and membership check. -/
def choiceStage (serverSeed : String) (bet multiplier : ℚ)
    (rawChoice clientSeed : Option String) (nonce : Nat) : HandlerOut :=
  let playerChoice := match rawChoice with
    | none => "heads"
    | some s => if s = "" then "heads" else s
  if playerChoice ∈ (["heads", "tails"] : List String) then
    playStage serverSeed bet multiplier playerChoice clientSeed nonce
  else
    HandlerOut.error 400 "Player choice must be \"heads\" or \"tails\""

/-- Lines 132–163 of `play.js`: `multiplier` type and bounds checks. -/
def multStage (serverSeed : String) (bet : ℚ) (multOpt : Option ℚ)
    (rawChoice clientSeed : Option String) (nonce : Nat) : HandlerOut :=
  match multOpt with
  | none => HandlerOut.error 400 "Multiplier must be a valid number"
  | some multiplier =>
    if multiplier < MIN_MULTIPLIER then
      HandlerOut.error 400 "Multiplier must be at least 1.96x"
    else if MAX_MULTIPLIER < multiplier then
      HandlerOut.error 400 "Multiplier cannot exceed 10x"
    else choiceStage serverSeed bet multiplier rawChoice clientSeed nonce

/-- Lines 99–130 of `play.js`: `bet` type and bounds checks. -/
def betStage (serverSeed : String) (betOpt multOpt : Option ℚ)
    (rawChoice clientSeed : Option String) (nonce : Nat) : HandlerOut :=
  match betOpt with
  | none => HandlerOut.error 400 "Bet must be a valid number"
  | some bet =>
    if bet < MIN_BET then
      HandlerOut.error 400 "Minimum bet is $0.10"
    else if MAX_BET < bet then
      HandlerOut.error 400 "Maximum bet is $20,000.00"
    else multStage serverSeed bet multOpt rawChoice clientSeed nonce

/-- Lines 96–208 of `play.js`: everything after a successful `JSON.parse`.
`NONCE_COUNTER` is incremented first (line 96), before any validation; the
new counter value is returned on every path, including validation
failures. -/
def processRequest (serverSeed : String) (nonceCounter : Nat) (req : Req) :
    HandlerOut × Nat :=
  let nonce := nonceCounter + 1
  (betStage serverSeed req.bet req.multiplier req.player_choice req.client_seed nonce,
   nonce)

/-- The function `exports.handler`: OPTIONS pre-flight, 405 on other non-POST methods,
then rate limit, `JSON.parse` (a throw is caught by the `catch` block and
answered with a generic 500), then `processRequest`. -/
def handler (serverSeed : String) (st : PState) (ev : Event) : HandlerOut × PState :=
  if ev.httpMethod = "OPTIONS" then (HandlerOut.preflight, st)
  else if ev.httpMethod ≠ "POST" then (HandlerOut.error 405 "Method not allowed", st)
  else
    let cid := getClientId ev.forwardedFor ev.clientIp
    let rl := checkRateLimit st.store cid ev.now
    if rl.1 then
      match ev.body with
      | none =>
        (HandlerOut.error 500 "An unexpected error occurred. Please try again.",
         ⟨st.nonceCounter, rl.2⟩)
      | some req =>
        let pr := processRequest serverSeed st.nonceCounter req
        (pr.1, ⟨pr.2, rl.2⟩)
    else (HandlerOut.error 429 "Too many requests. Please slow down.", st)

/-! ### Concrete fixtures used in the scenario theorems -/

/-- The literal request mode named by the contract. -/
def sBaseBet : String := "base_bet"

/-- A mode value outside the contract's three recognized modes. -/
def sBogus : String := "definitely_not_a_mode"

def sHeads : String := "heads"

def sTails : String := "tails"

def sSeedA : String := "a"

def sSeedB : String := "b"

def sSeedC : String := "c"

def sIp : String := "1.2.3.4"

def sClient : String := "cid"

/-- A `base_bet` request with client seed "a" (losing flip under the default
server seed and nonce 1). -/
def reqLoseA : Req := ⟨some sBaseBet, some 10, some 2, some sHeads, some sSeedA⟩

/-- A `base_bet` request with client seed "b" (winning flip under the default
server seed and nonce 1). -/
def reqWinB : Req := ⟨some sBaseBet, some 10, some 2, some sHeads, some sSeedB⟩

/-- A `base_bet` request with no `multiplier` field, as in the spec's S1
scenario. -/
def reqNoMult : Req := ⟨some sBaseBet, some 10, none, some sHeads, some sSeedC⟩

/-- A request whose `bet` is not a number (e.g. the string `"x"`). -/
def reqBadBet : Req := ⟨some sBaseBet, none, some 2, some sHeads, some sSeedC⟩

/-- The winning request with an unrecognized mode value. -/
def reqBogusMode : Req := ⟨some sBogus, some 10, some 2, some sHeads, some sSeedA⟩

/-- A valid wager whose player chooses tails. -/
def reqTails : Req := ⟨some sBaseBet, some 10, some 2, some sTails, some sSeedA⟩

/-- A wager below the minimum bet (the spec's `bet: 0.05`). -/
def reqLowBet : Req := ⟨some sBaseBet, some (1 / 20), some 2, some sHeads, some sSeedC⟩

/-- A wager above the maximum bet. -/
def reqHighBet : Req := ⟨some sBaseBet, some 30000, some 2, some sHeads, some sSeedC⟩

/-- A rate-limit store holding five timestamps for one client. -/
def storeW : Store := [(sClient, [10, 11, 12, 13, 14])]

/-- A POST event carrying a parsed body, from a fresh client at time 0. -/
def evOf (r : Req) : Event := ⟨"POST", none, some sIp, 0, some r⟩

/-- A POST event whose body failed to parse as JSON. -/
def evBadJson : Event := ⟨"POST", none, some sIp, 0, none⟩

/-! ### Byte-range and hex-parsing lemmas -/

theorem wordBytes_lt (w : Nat) : ∀ b ∈ wordBytes w, b < 256 := by
  simp only [wordBytes, List.mem_cons, List.not_mem_nil, or_false]
  rintro b (rfl | rfl | rfl | rfl) <;> exact Nat.mod_lt _ (by norm_num)

theorem sha256_bytes_lt (msg : List Nat) : ∀ b ∈ sha256 msg, b < 256 := by
  simp only [sha256]
  intro b hb
  simp only [List.mem_append] at hb
  rcases hb with ((((((h | h) | h) | h) | h) | h) | h) | h <;> exact wordBytes_lt _ _ h

theorem hmacSha256_bytes_lt (key msg : List Nat) : ∀ b ∈ hmacSha256 key msg, b < 256 := by
  simp only [hmacSha256]
  exact sha256_bytes_lt _

theorem hexVal_hexChar : ∀ d, d < 16 → hexVal (hexChar d) = d := by decide

theorem hexEncode_take (l : List Nat) (k : Nat) :
    (hexEncode l).take (2 * k) = hexEncode (l.take k) := by
  induction l generalizing k with
  | nil => simp [hexEncode]
  | cons b t ih =>
    cases k with
    | zero => simp [hexEncode]
    | succ k =>
      have h2 : 2 * (k + 1) = 2 * k + 1 + 1 := by ring
      simp only [hexEncode, h2, List.take_succ_cons, ih]

theorem parseHex_foldl (l : List Nat) (h : ∀ b ∈ l, b < 256) (acc : Nat) :
    List.foldl (fun a c => a * 16 + hexVal c) acc (hexEncode l) =
      List.foldl (fun a b => a * 256 + b) acc l := by
  induction l generalizing acc with
  | nil => rfl
  | cons b t ih =>
    have hb : b < 256 := h b (List.mem_cons_self _ _)
    have ht : ∀ x ∈ t, x < 256 := fun x hx => h x (List.mem_cons_of_mem _ hx)
    simp only [hexEncode, List.foldl_cons]
    rw [hexVal_hexChar (b / 16) (by omega), hexVal_hexChar (b % 16) (by omega), ih ht]
    congr 1
    omega

theorem parseHex_hexEncode (l : List Nat) (h : ∀ b ∈ l, b < 256) :
    parseHex (hexEncode l) = beVal l :=
  parseHex_foldl l h 0

theorem beVal_foldl_lt (l : List Nat) (h : ∀ b ∈ l, b < 256) (acc : Nat) :
    List.foldl (fun a b => a * 256 + b) acc l < (acc + 1) * 256 ^ l.length := by
  induction l generalizing acc with
  | nil => simp
  | cons b t ih =>
    have hb : b < 256 := h b (List.mem_cons_self _ _)
    have ht : ∀ x ∈ t, x < 256 := fun x hx => h x (List.mem_cons_of_mem _ hx)
    simp only [List.foldl_cons, List.length_cons]
    calc List.foldl (fun a b => a * 256 + b) (acc * 256 + b) t
        < (acc * 256 + b + 1) * 256 ^ t.length := ih ht _
      _ ≤ ((acc + 1) * 256) * 256 ^ t.length :=
          Nat.mul_le_mul_right _ (by omega)
      _ = (acc + 1) * 256 ^ (t.length + 1) := by ring

theorem beVal_lt (l : List Nat) (h : ∀ b ∈ l, b < 256) : beVal l < 256 ^ l.length := by
  simpa using beVal_foldl_lt l h 0

/-- C5.  For every `(server_seed, client_seed, nonce)`, the value computed by
`generateRandom01` equals the spec's `roll` construction: with
`msg = client_seed ++ ":" ++ decimal(nonce)` and `d = HMAC-SHA256`, the
result is the first 8 bytes of `d` read as a big-endian unsigned integer
divided by `2^64`; it is a rational in `[0, 1)` and, being a pure function,
is deterministic and reproducible. -/
theorem roll_matches_spec_construction (serverSeed clientSeed : List Nat) (nonce : Nat) :
    generateRandom01 serverSeed clientSeed nonce = specRoll serverSeed clientSeed nonce ∧
    0 ≤ specRoll serverSeed clientSeed nonce ∧ specRoll serverSeed clientSeed nonce < 1 := by
  have hbytes : ∀ b ∈ hmacSha256 serverSeed (clientSeed ++ [58] ++ natDecBytes nonce), b < 256 :=
    hmacSha256_bytes_lt _ _
  have htake : ∀ b ∈ (hmacSha256 serverSeed (clientSeed ++ [58] ++ natDecBytes nonce)).take 8,
      b < 256 := fun b hb => hbytes b (List.take_subset _ _ hb)
  have hu : beVal ((hmacSha256 serverSeed (clientSeed ++ [58] ++ natDecBytes nonce)).take 8)
      < 2 ^ 64 := by
    refine lt_of_lt_of_le (beVal_lt _ htake) ?_
    calc (256:Nat) ^ ((hmacSha256 serverSeed (clientSeed ++ [58] ++ natDecBytes nonce)).take 8).length
        ≤ 256 ^ 8 := Nat.pow_le_pow_right (by norm_num) (List.length_take_le _ _)
      _ = 2 ^ 64 := by norm_num
  refine ⟨?_, ?_, ?_⟩
  · simp only [generateRandom01, specRoll]
    rw [show (16:Nat) = 2 * 8 from rfl, hexEncode_take, parseHex_hexEncode _ htake]
    norm_num
  · simp only [specRoll]
    positivity
  · simp only [specRoll]
    rw [div_lt_one (by positivity)]
    calc ((beVal ((hmacSha256 serverSeed (clientSeed ++ [58] ++ natDecBytes nonce)).take 8) : Nat) : ℚ)
        < ((2 ^ 64 : Nat) : ℚ) := by exact_mod_cast hu
      _ = (2:ℚ) ^ 64 := by norm_num

/-! ### Handler control-flow lemmas -/

theorem handler_admits (serverSeed : String) (st : PState) (ev : Event) (req : Req)
    (hm : ev.httpMethod = "POST")
    (hrl : (checkRateLimit st.store (getClientId ev.forwardedFor ev.clientIp) ev.now).1 = true)
    (hb : ev.body = some req) :
    handler serverSeed st ev =
      (betStage serverSeed req.bet req.multiplier req.player_choice req.client_seed
          (st.nonceCounter + 1),
        ⟨st.nonceCounter + 1,
          (checkRateLimit st.store (getClientId ev.forwardedFor ev.clientIp) ev.now).2⟩) := by
  simp [handler, hm, hb, hrl, processRequest]

theorem handler_denied (serverSeed : String) (st : PState) (ev : Event)
    (hm : ev.httpMethod = "POST")
    (hrl : (checkRateLimit st.store (getClientId ev.forwardedFor ev.clientIp) ev.now).1 = false) :
    handler serverSeed st ev =
      (HandlerOut.error 429 "Too many requests. Please slow down.", st) := by
  simp [handler, hm, hrl]

theorem handler_badBody (serverSeed : String) (st : PState) (ev : Event)
    (hm : ev.httpMethod = "POST")
    (hrl : (checkRateLimit st.store (getClientId ev.forwardedFor ev.clientIp) ev.now).1 = true)
    (hb : ev.body = none) :
    handler serverSeed st ev =
      (HandlerOut.error 500 "An unexpected error occurred. Please try again.",
        ⟨st.nonceCounter,
          (checkRateLimit st.store (getClientId ev.forwardedFor ev.clientIp) ev.now).2⟩) := by
  simp [handler, hm, hb, hrl]

theorem betStage_ok (serverSeed : String) (b : ℚ) (multOpt : Option ℚ)
    (rawChoice clientSeed : Option String) (nonce : Nat)
    (h1 : ¬ b < MIN_BET) (h2 : ¬ MAX_BET < b) :
    betStage serverSeed (some b) multOpt rawChoice clientSeed nonce =
      multStage serverSeed b multOpt rawChoice clientSeed nonce := by
  simp [betStage, h1, h2]

theorem multStage_ok (serverSeed : String) (b m : ℚ)
    (rawChoice clientSeed : Option String) (nonce : Nat)
    (h1 : ¬ m < MIN_MULTIPLIER) (h2 : ¬ MAX_MULTIPLIER < m) :
    multStage serverSeed b (some m) rawChoice clientSeed nonce =
      choiceStage serverSeed b m rawChoice clientSeed nonce := by
  simp [multStage, h1, h2]

theorem choiceStage_valid (serverSeed : String) (b m : ℚ) (pc : String)
    (clientSeed : Option String) (nonce : Nat)
    (hne : ¬ pc = "") (hmem : pc ∈ (["heads", "tails"] : List String)) :
    choiceStage serverSeed b m (some pc) clientSeed nonce =
      playStage serverSeed b m pc clientSeed nonce := by
  simp [choiceStage, hne, hmem]

theorem round2_zero : round2 0 = 0 := by
  with_unfolding_all decide

/-! ### Concrete roll values under the default server seed -/

set_option maxRecDepth 40000 in
theorem digest_a : hmacSha256 (strBytes SERVER_SEED) (strBytes sSeedA ++ [58] ++ natDecBytes 1) =
    [232, 25, 102, 9, 85, 200, 139, 230, 140, 24, 91, 21, 65, 239, 34, 55, 156, 119, 163,
     117, 166, 97, 59, 159, 218, 4, 176, 91, 12, 197, 36, 145] := by
  with_unfolding_all decide

set_option maxRecDepth 40000 in
theorem digest_b : hmacSha256 (strBytes SERVER_SEED) (strBytes sSeedB ++ [58] ++ natDecBytes 1) =
    [88, 198, 55, 8, 79, 130, 153, 95, 237, 186, 122, 204, 173, 233, 239, 106, 25, 128, 233,
     47, 19, 4, 50, 221, 43, 148, 25, 127, 218, 205, 236, 250] := by
  with_unfolding_all decide

set_option maxRecDepth 40000 in
theorem roll_a : generateRandom01 (strBytes SERVER_SEED) (strBytes sSeedA) 1 =
    ((16724510881496992742 : Nat) : ℚ) / 16 ^ 16 := by
  have hp : parseHex ((hexEncode
      ([232, 25, 102, 9, 85, 200, 139, 230, 140, 24, 91, 21, 65, 239, 34, 55, 156, 119, 163,
        117, 166, 97, 59, 159, 218, 4, 176, 91, 12, 197, 36, 145] : List Nat)).take 16) =
      16724510881496992742 := by
    with_unfolding_all decide
  simp only [generateRandom01]
  rw [digest_a, hp]

set_option maxRecDepth 40000 in
theorem roll_b : generateRandom01 (strBytes SERVER_SEED) (strBytes sSeedB) 1 =
    ((6396860829559593311 : Nat) : ℚ) / 16 ^ 16 := by
  have hp : parseHex ((hexEncode
      ([88, 198, 55, 8, 79, 130, 153, 95, 237, 186, 122, 204, 173, 233, 239, 106, 25, 128, 233,
        47, 19, 4, 50, 221, 43, 148, 25, 127, 218, 205, 236, 250] : List Nat)).take 16) =
      6396860829559593311 := by
    with_unfolding_all decide
  simp only [generateRandom01]
  rw [digest_b, hp]

set_option maxRecDepth 40000 in
theorem seedHash_lit : getServerSeedHash SERVER_SEED =
    "d483f767ba1a75110fd433dad1c88b449f47e4b5556df30eb5eaf594f61700aa" := by
  with_unfolding_all decide

theorem handler_admits_fst (serverSeed : String) (st : PState) (ev : Event) (req : Req)
    (hm : ev.httpMethod = "POST")
    (hrl : (checkRateLimit st.store (getClientId ev.forwardedFor ev.clientIp) ev.now).1 = true)
    (hb : ev.body = some req) :
    (handler serverSeed st ev).1 =
      betStage serverSeed req.bet req.multiplier req.player_choice req.client_seed
        (st.nonceCounter + 1) := by
  rw [handler_admits serverSeed st ev req hm hrl hb]

/-! ### Concrete handler runs -/

set_option maxRecDepth 40000 in
theorem run_lose_a : (handler SERVER_SEED ⟨0, []⟩ (evOf reqLoseA)).1 =
    HandlerOut.success ⟨false, false, false, 0,
      ((16724510881496992742 : Nat) : ℚ) / 16 ^ 16, 49 / 100,
      "d483f767ba1a75110fd433dad1c88b449f47e4b5556df30eb5eaf594f61700aa", 1, "tails"⟩ := by
  rw [handler_admits_fst SERVER_SEED ⟨0, []⟩ (evOf reqLoseA) reqLoseA rfl (by decide) rfl]
  simp only [reqLoseA, Nat.reduceAdd]
  rw [betStage_ok SERVER_SEED 10 (some 2) (some sHeads) (some sSeedA) 1
      (by norm_num [MIN_BET]) (by norm_num [MAX_BET])]
  rw [multStage_ok SERVER_SEED 10 2 (some sHeads) (some sSeedA) 1
      (by norm_num [MIN_MULTIPLIER]) (by norm_num [MAX_MULTIPLIER])]
  rw [choiceStage_valid SERVER_SEED 10 2 sHeads (some sSeedA) 1 (by decide) (by decide)]
  simp only [playStage, Option.getD_some, roll_a, seedHash_lit]
  have hlt2 : ¬ (((16724510881496992742 : Nat) : ℚ) / 16 ^ 16 < 1 / 2) := by norm_num
  have hltw : ¬ (((16724510881496992742 : Nat) : ℚ) / 16 ^ 16 < RTP / 2) := by norm_num [RTP]
  have hsb : ((("tails" : String) == sHeads)) = false := by with_unfolding_all decide
  norm_num [hlt2, hltw, hsb, round2_zero, RTP]

set_option maxRecDepth 40000 in
theorem run_win_b : (handler SERVER_SEED ⟨0, []⟩ (evOf reqWinB)).1 =
    HandlerOut.success ⟨true, true, true, 20,
      ((6396860829559593311 : Nat) : ℚ) / 16 ^ 16, 49 / 100,
      "d483f767ba1a75110fd433dad1c88b449f47e4b5556df30eb5eaf594f61700aa", 1, "heads"⟩ := by
  rw [handler_admits_fst SERVER_SEED ⟨0, []⟩ (evOf reqWinB) reqWinB rfl (by decide) rfl]
  simp only [reqWinB, Nat.reduceAdd]
  rw [betStage_ok SERVER_SEED 10 (some 2) (some sHeads) (some sSeedB) 1
      (by norm_num [MIN_BET]) (by norm_num [MAX_BET])]
  rw [multStage_ok SERVER_SEED 10 2 (some sHeads) (some sSeedB) 1
      (by norm_num [MIN_MULTIPLIER]) (by norm_num [MAX_MULTIPLIER])]
  rw [choiceStage_valid SERVER_SEED 10 2 sHeads (some sSeedB) 1 (by decide) (by decide)]
  simp only [playStage, Option.getD_some, roll_b, seedHash_lit]
  have hlt2 : ((6396860829559593311 : Nat) : ℚ) / 16 ^ 16 < 1 / 2 := by norm_num
  have hltw : ((6396860829559593311 : Nat) : ℚ) / 16 ^ 16 < RTP / 2 := by norm_num [RTP]
  have hsb : ((("heads" : String) == sHeads)) = true := by with_unfolding_all decide
  have hr20 : round2 (20 : ℚ) = 20 := by with_unfolding_all decide
  norm_num [hlt2, hltw, hsb, hr20, RTP]

set_option maxRecDepth 40000 in
theorem run_bogus_mode : (handler SERVER_SEED ⟨0, []⟩ (evOf reqBogusMode)).1 =
    HandlerOut.success ⟨false, false, false, 0,
      ((16724510881496992742 : Nat) : ℚ) / 16 ^ 16, 49 / 100,
      "d483f767ba1a75110fd433dad1c88b449f47e4b5556df30eb5eaf594f61700aa", 1, "tails"⟩ := by
  rw [handler_admits_fst SERVER_SEED ⟨0, []⟩ (evOf reqBogusMode) reqBogusMode rfl (by decide) rfl]
  simp only [reqBogusMode, Nat.reduceAdd]
  rw [betStage_ok SERVER_SEED 10 (some 2) (some sHeads) (some sSeedA) 1
      (by norm_num [MIN_BET]) (by norm_num [MAX_BET])]
  rw [multStage_ok SERVER_SEED 10 2 (some sHeads) (some sSeedA) 1
      (by norm_num [MIN_MULTIPLIER]) (by norm_num [MAX_MULTIPLIER])]
  rw [choiceStage_valid SERVER_SEED 10 2 sHeads (some sSeedA) 1 (by decide) (by decide)]
  simp only [playStage, Option.getD_some, roll_a, seedHash_lit]
  have hlt2 : ¬ (((16724510881496992742 : Nat) : ℚ) / 16 ^ 16 < 1 / 2) := by norm_num
  have hltw : ¬ (((16724510881496992742 : Nat) : ℚ) / 16 ^ 16 < RTP / 2) := by norm_num [RTP]
  have hsb : ((("tails" : String) == sHeads)) = false := by with_unfolding_all decide
  norm_num [hlt2, hltw, hsb, round2_zero, RTP]

/-! ### Claim C1 -/

/-- C1, counterexample.  Two admitted POST requests that differ only in
`client_seed` (`reqLoseA` uses seed "a", `reqWinB` uses seed "b"; all other
fields and the process state are identical) produce different `coin_side`
("tails" vs "heads") and different `did_win` (`false` vs `true`): the
outcome is not independent of the verifiable roll's inputs. -/
theorem coin_side_not_independent_cx :
    (handler SERVER_SEED ⟨0, []⟩ (evOf reqLoseA)).1 =
      HandlerOut.success ⟨false, false, false, 0,
        ((16724510881496992742 : Nat) : ℚ) / 16 ^ 16, 49 / 100,
        "d483f767ba1a75110fd433dad1c88b449f47e4b5556df30eb5eaf594f61700aa", 1, "tails"⟩ ∧
    (handler SERVER_SEED ⟨0, []⟩ (evOf reqWinB)).1 =
      HandlerOut.success ⟨true, true, true, 20,
        ((6396860829559593311 : Nat) : ℚ) / 16 ^ 16, 49 / 100,
        "d483f767ba1a75110fd433dad1c88b449f47e4b5556df30eb5eaf594f61700aa", 1, "heads"⟩ ∧
    reqLoseA = { reqWinB with client_seed := some sSeedA } ∧
    ("tails" : String) ≠ "heads" :=
  ⟨run_lose_a, run_win_b, rfl, by decide⟩

/-- C1 (amended).  For every admitted `base_bet` request, `coin_side` and
`did_win` are determined by the verifiable roll itself: the response body
satisfies `coin_side = if roll < 1/2 then "heads" else "tails"` and
`did_win = (roll < RTP / multiplier) && (coin_side == player_choice)` with
`roll = generateRandom01(server_seed, client_seed, nonce)`; the decision is
not drawn independently of the roll, so requests differing only in
`client_seed` or `nonce` can change the outcome. -/
theorem outcome_determined_by_roll (serverSeed : String) (st : PState) (ev : Event)
    (req : Req) (b m : ℚ) (pc : String)
    (hm : ev.httpMethod = "POST")
    (hrl : (checkRateLimit st.store (getClientId ev.forwardedFor ev.clientIp) ev.now).1 = true)
    (hb : ev.body = some req)
    (hbet : req.bet = some b) (hb1 : ¬ b < MIN_BET) (hb2 : ¬ MAX_BET < b)
    (hmul : req.multiplier = some m) (hm1 : ¬ m < MIN_MULTIPLIER) (hm2 : ¬ MAX_MULTIPLIER < m)
    (hpc : req.player_choice = some pc) (hpc1 : ¬ pc = "")
    (hpc2 : pc ∈ (["heads", "tails"] : List String)) :
    ∃ r, (handler serverSeed st ev).1 = HandlerOut.success r ∧
      r.coin_side = (if generateRandom01 (strBytes serverSeed)
          (strBytes (req.client_seed.getD undefinedStr)) (st.nonceCounter + 1) < 1 / 2
        then "heads" else "tails") ∧
      r.did_win = (decide (generateRandom01 (strBytes serverSeed)
          (strBytes (req.client_seed.getD undefinedStr)) (st.nonceCounter + 1) < RTP / m)
        && (r.coin_side == pc)) := by
  rw [handler_admits_fst serverSeed st ev req hm hrl hb, hbet, hmul, hpc]
  rw [betStage_ok serverSeed b (some m) (some pc) req.client_seed
      (st.nonceCounter + 1) hb1 hb2]
  rw [multStage_ok serverSeed b m (some pc) req.client_seed
      (st.nonceCounter + 1) hm1 hm2]
  rw [choiceStage_valid serverSeed b m pc req.client_seed (st.nonceCounter + 1) hpc1 hpc2]
  simp only [playStage]
  exact ⟨_, rfl, rfl, rfl⟩

/-- C1, witness for the amended theorem at the concrete winning request. -/
theorem outcome_determined_by_roll_witness :
    ∃ r, (handler SERVER_SEED ⟨0, []⟩ (evOf reqWinB)).1 = HandlerOut.success r ∧
      r.coin_side = (if generateRandom01 (strBytes SERVER_SEED)
          (strBytes ((some sSeedB).getD undefinedStr)) ((0 : Nat) + 1) < 1 / 2
        then "heads" else "tails") ∧
      r.did_win = (decide (generateRandom01 (strBytes SERVER_SEED)
          (strBytes ((some sSeedB).getD undefinedStr)) ((0 : Nat) + 1) < RTP / 2)
        && (r.coin_side == sHeads)) :=
  outcome_determined_by_roll SERVER_SEED ⟨0, []⟩ (evOf reqWinB) reqWinB 10 2 sHeads rfl
    (by decide) rfl rfl (by norm_num [MIN_BET]) (by norm_num [MAX_BET]) rfl
    (by norm_num [MIN_MULTIPLIER]) (by norm_num [MAX_MULTIPLIER]) rfl (by decide) (by decide)

/-! ### Claim C9 -/

/-- C9, counterexample.  A POST request whose `mode` field is present and is
none of `base_bet`, `ladder_step`, `cash_out` (here
`"definitely_not_a_mode"`) is not rejected with 400: the handler processes
it as a wager and answers 200 with a full game response. -/
theorem unknown_mode_processed_cx :
    (handler SERVER_SEED ⟨0, []⟩ (evOf reqBogusMode)).1 =
      HandlerOut.success ⟨false, false, false, 0,
        ((16724510881496992742 : Nat) : ℚ) / 16 ^ 16, 49 / 100,
        "d483f767ba1a75110fd433dad1c88b449f47e4b5556df30eb5eaf594f61700aa", 1, "tails"⟩ ∧
    reqBogusMode.mode = some sBogus ∧
    sBogus ∉ (["base_bet", "ladder_step", "cash_out"] : List String) :=
  ⟨run_bogus_mode, rfl, by decide⟩

/-- C9 (amended).  The handler never reads the `mode` field: changing `mode`
to any value (present or absent, recognized or not) leaves the result of
processing an admitted request unchanged, so no mode value is ever
rejected. -/
theorem mode_field_ignored (serverSeed : String) (nonceCounter : Nat) (req : Req)
    (m : Option String) :
    processRequest serverSeed nonceCounter { req with mode := m } =
      processRequest serverSeed nonceCounter req := rfl

/-! ### Claim C2 -/

/-- C2, counterexample.  The spec's S1 request
`{mode:"base_bet", bet:10, player_choice:"heads", client_seed:"c"}` — which
carries no `multiplier` field — is not accepted with 200: the handler
rejects it with 400 `Multiplier must be a valid number`. -/
theorem base_bet_without_multiplier_cx :
    (handler SERVER_SEED ⟨0, []⟩ (evOf reqNoMult)).1 =
      HandlerOut.error 400 "Multiplier must be a valid number" ∧
    reqNoMult.multiplier = none ∧ (400 : Nat) ≠ 200 := by
  refine ⟨?_, rfl, by decide⟩
  rw [handler_admits_fst SERVER_SEED ⟨0, []⟩ (evOf reqNoMult) reqNoMult rfl (by decide) rfl]
  simp only [reqNoMult, Nat.reduceAdd]
  rw [betStage_ok SERVER_SEED 10 none (some sHeads) (some sSeedC) 1
      (by norm_num [MIN_BET]) (by norm_num [MAX_BET])]
  rfl

/-- C2 (amended).  A `base_bet` request carrying only mode, bet,
player_choice and client_seed (no `multiplier` field), with bet within
bounds, is not accepted: the handler answers 400 with detail
`Multiplier must be a valid number` (the legacy contract requires a
multiplier; no response carries a `ladder_active` field). -/
theorem base_bet_without_multiplier_400 (serverSeed : String) (st : PState) (ev : Event)
    (req : Req) (b : ℚ)
    (hm : ev.httpMethod = "POST")
    (hrl : (checkRateLimit st.store (getClientId ev.forwardedFor ev.clientIp) ev.now).1 = true)
    (hb : ev.body = some req)
    (hbet : req.bet = some b) (hb1 : ¬ b < MIN_BET) (hb2 : ¬ MAX_BET < b)
    (hmul : req.multiplier = none) :
    (handler serverSeed st ev).1 = HandlerOut.error 400 "Multiplier must be a valid number" := by
  rw [handler_admits_fst serverSeed st ev req hm hrl hb, hbet, hmul]
  rw [betStage_ok serverSeed b none req.player_choice req.client_seed
      (st.nonceCounter + 1) hb1 hb2]
  rfl

/-- C2, witness for the amended theorem at the S1-style request. -/
theorem base_bet_without_multiplier_400_witness :
    (handler SERVER_SEED ⟨0, []⟩ (evOf reqNoMult)).1 =
      HandlerOut.error 400 "Multiplier must be a valid number" :=
  base_bet_without_multiplier_400 SERVER_SEED ⟨0, []⟩ (evOf reqNoMult) reqNoMult 10 rfl
    (by decide) rfl rfl (by norm_num [MIN_BET]) (by norm_num [MAX_BET]) rfl

/-! ### Claim C4 -/

set_option maxRecDepth 8000 in
/-- C4, counterexample.  A POST request whose `bet` is not a number is
rejected with the first failing rule's 400, but process state is mutated:
starting from `NONCE_COUNTER = 0`, the rejected request leaves the counter
at 1 (the increment on line 96 precedes all validation), and the rate
limiter has recorded the request. -/
theorem nonce_incremented_on_rejection_cx :
    handler SERVER_SEED ⟨0, []⟩ (evOf reqBadBet) =
      (HandlerOut.error 400 "Bet must be a valid number", ⟨1, [(sIp, [0])]⟩) ∧
    (1 : Nat) ≠ 0 := by
  with_unfolding_all decide

/-- C4 (amended).  A request failing validation is answered with the 400 of
the first failing rule, but `NONCE_COUNTER` is incremented before
validation runs, so the rejected request still increments the counter (and
the rate limiter has already recorded the request). -/
theorem first_failing_rule_nonce_increments (serverSeed : String) (st : PState) (ev : Event)
    (req : Req)
    (hm : ev.httpMethod = "POST")
    (hrl : (checkRateLimit st.store (getClientId ev.forwardedFor ev.clientIp) ev.now).1 = true)
    (hb : ev.body = some req) :
    (req.bet = none → handler serverSeed st ev =
      (HandlerOut.error 400 "Bet must be a valid number",
        ⟨st.nonceCounter + 1,
          (checkRateLimit st.store (getClientId ev.forwardedFor ev.clientIp) ev.now).2⟩)) ∧
    (∀ b, req.bet = some b → b < MIN_BET → handler serverSeed st ev =
      (HandlerOut.error 400 "Minimum bet is $0.10",
        ⟨st.nonceCounter + 1,
          (checkRateLimit st.store (getClientId ev.forwardedFor ev.clientIp) ev.now).2⟩)) ∧
    (∀ b m, req.bet = some b → ¬ b < MIN_BET → ¬ MAX_BET < b →
      req.multiplier = some m → m < MIN_MULTIPLIER → handler serverSeed st ev =
      (HandlerOut.error 400 "Multiplier must be at least 1.96x",
        ⟨st.nonceCounter + 1,
          (checkRateLimit st.store (getClientId ev.forwardedFor ev.clientIp) ev.now).2⟩)) := by
  refine ⟨?_, ?_, ?_⟩
  · intro hbet
    rw [handler_admits serverSeed st ev req hm hrl hb, hbet]
    rfl
  · intro b hbet hlt
    rw [handler_admits serverSeed st ev req hm hrl hb, hbet]
    simp [betStage, hlt]
  · intro b m hbet hb1 hb2 hmul hmlt
    rw [handler_admits serverSeed st ev req hm hrl hb, hbet, hmul]
    rw [betStage_ok serverSeed b (some m) req.player_choice req.client_seed
        (st.nonceCounter + 1) hb1 hb2]
    simp [multStage, hmlt]

/-- C4, witness: the three rejection branches of the amended theorem at
concrete requests, each incrementing the nonce counter from 0 to 1. -/
theorem first_failing_rule_nonce_increments_witness :
    handler SERVER_SEED ⟨0, []⟩ (evOf reqBadBet) =
      (HandlerOut.error 400 "Bet must be a valid number",
        ⟨0 + 1, (checkRateLimit [] (getClientId none (some sIp)) 0).2⟩) ∧
    handler SERVER_SEED ⟨0, []⟩ (evOf reqLowBet) =
      (HandlerOut.error 400 "Minimum bet is $0.10",
        ⟨0 + 1, (checkRateLimit [] (getClientId none (some sIp)) 0).2⟩) ∧
    handler SERVER_SEED ⟨0, []⟩ (evOf ⟨some sBaseBet, some 10, some 1, some sHeads, some sSeedC⟩) =
      (HandlerOut.error 400 "Multiplier must be at least 1.96x",
        ⟨0 + 1, (checkRateLimit [] (getClientId none (some sIp)) 0).2⟩) :=
  ⟨(first_failing_rule_nonce_increments SERVER_SEED ⟨0, []⟩ (evOf reqBadBet) reqBadBet rfl
      (by decide) rfl).1 rfl,
   (first_failing_rule_nonce_increments SERVER_SEED ⟨0, []⟩ (evOf reqLowBet) reqLowBet rfl
      (by decide) rfl).2.1 (1 / 20) rfl (by norm_num [MIN_BET]),
   (first_failing_rule_nonce_increments SERVER_SEED ⟨0, []⟩
      (evOf ⟨some sBaseBet, some 10, some 1, some sHeads, some sSeedC⟩)
      ⟨some sBaseBet, some 10, some 1, some sHeads, some sSeedC⟩ rfl (by decide) rfl).2.2 10 1
      rfl (by norm_num [MIN_BET]) (by norm_num [MAX_BET]) rfl (by norm_num [MIN_MULTIPLIER])⟩

/-! ### Claim C8 -/

set_option maxRecDepth 8000 in
/-- C8, counterexample.  A POST request whose body is not syntactically
valid JSON is not answered with a 400: `JSON.parse` throws, the `catch`
block fires, and the handler returns the generic 500. -/
theorem bad_json_500_cx :
    handler SERVER_SEED ⟨0, []⟩ evBadJson =
      (HandlerOut.error 500 "An unexpected error occurred. Please try again.",
        ⟨0, [(sIp, [0])]⟩) ∧
    (500 : Nat) ≠ 400 := by
  with_unfolding_all decide

/-- C8 (amended).  For every POST request whose body fails to parse as
JSON, the handler returns status 500 with the generic detail
`An unexpected error occurred. Please try again.` (the nonce counter is not
incremented, but the rate limiter has recorded the request). -/
theorem bad_json_returns_500 (serverSeed : String) (st : PState) (ev : Event)
    (hm : ev.httpMethod = "POST")
    (hrl : (checkRateLimit st.store (getClientId ev.forwardedFor ev.clientIp) ev.now).1 = true)
    (hb : ev.body = none) :
    handler serverSeed st ev =
      (HandlerOut.error 500 "An unexpected error occurred. Please try again.",
        ⟨st.nonceCounter,
          (checkRateLimit st.store (getClientId ev.forwardedFor ev.clientIp) ev.now).2⟩) :=
  handler_badBody serverSeed st ev hm hrl hb

/-- C8, witness for the amended theorem at a concrete unparsable body. -/
theorem bad_json_returns_500_witness :
    handler SERVER_SEED ⟨0, []⟩ evBadJson =
      (HandlerOut.error 500 "An unexpected error occurred. Please try again.",
        ⟨0, (checkRateLimit [] (getClientId none (some sIp)) 0).2⟩) :=
  bad_json_returns_500 SERVER_SEED ⟨0, []⟩ evBadJson rfl (by decide) rfl

/-! ### Claim C10 -/

/-- C10.  For every admitted wager request: a non-numeric `bet` is answered
400 `Bet must be a valid number`; `bet < 0.10` is answered 400 with a
detail mentioning the minimum (`Minimum bet is $0.10`); `bet > 20000` is
answered 400 with a detail mentioning the maximum
(`Maximum bet is $20,000.00`); otherwise the bet-bound checks pass and
control reaches the multiplier validation stage. -/
theorem bet_validation_spec (serverSeed : String) (st : PState) (ev : Event) (req : Req)
    (hm : ev.httpMethod = "POST")
    (hrl : (checkRateLimit st.store (getClientId ev.forwardedFor ev.clientIp) ev.now).1 = true)
    (hb : ev.body = some req) :
    (req.bet = none →
      (handler serverSeed st ev).1 = HandlerOut.error 400 "Bet must be a valid number") ∧
    (∀ b, req.bet = some b → b < MIN_BET →
      (handler serverSeed st ev).1 = HandlerOut.error 400 "Minimum bet is $0.10") ∧
    (∀ b, req.bet = some b → MAX_BET < b →
      (handler serverSeed st ev).1 = HandlerOut.error 400 "Maximum bet is $20,000.00") ∧
    (∀ b, req.bet = some b → ¬ b < MIN_BET → ¬ MAX_BET < b →
      (handler serverSeed st ev).1 = multStage serverSeed b req.multiplier req.player_choice
        req.client_seed (st.nonceCounter + 1)) := by
  refine ⟨?_, ?_, ?_, ?_⟩
  · intro hbet
    rw [handler_admits_fst serverSeed st ev req hm hrl hb, hbet]
    rfl
  · intro b hbet hlt
    rw [handler_admits_fst serverSeed st ev req hm hrl hb, hbet]
    simp [betStage, hlt]
  · intro b hbet hgt
    have hnlt : ¬ b < MIN_BET := by
      simp only [MIN_BET, MAX_BET] at hgt ⊢
      intro hcon
      linarith
    rw [handler_admits_fst serverSeed st ev req hm hrl hb, hbet]
    simp [betStage, hnlt, hgt]
  · intro b hbet h1 h2
    rw [handler_admits_fst serverSeed st ev req hm hrl hb, hbet]
    exact betStage_ok serverSeed b req.multiplier req.player_choice req.client_seed
      (st.nonceCounter + 1) h1 h2

/-- C10, witness: the four branches at concrete requests. -/
theorem bet_validation_spec_witness :
    (handler SERVER_SEED ⟨0, []⟩ (evOf reqBadBet)).1 =
      HandlerOut.error 400 "Bet must be a valid number" ∧
    (handler SERVER_SEED ⟨0, []⟩ (evOf reqLowBet)).1 =
      HandlerOut.error 400 "Minimum bet is $0.10" ∧
    (handler SERVER_SEED ⟨0, []⟩ (evOf reqHighBet)).1 =
      HandlerOut.error 400 "Maximum bet is $20,000.00" ∧
    (handler SERVER_SEED ⟨0, []⟩ (evOf reqNoMult)).1 =
      multStage SERVER_SEED 10 none (some sHeads) (some sSeedC) (0 + 1) :=
  ⟨(bet_validation_spec SERVER_SEED ⟨0, []⟩ (evOf reqBadBet) reqBadBet rfl (by decide) rfl).1
      rfl,
   (bet_validation_spec SERVER_SEED ⟨0, []⟩ (evOf reqLowBet) reqLowBet rfl (by decide) rfl).2.1
      (1 / 20) rfl (by norm_num [MIN_BET]),
   (bet_validation_spec SERVER_SEED ⟨0, []⟩ (evOf reqHighBet) reqHighBet rfl (by decide)
      rfl).2.2.1 30000 rfl (by norm_num [MAX_BET]),
   (bet_validation_spec SERVER_SEED ⟨0, []⟩ (evOf reqNoMult) reqNoMult rfl (by decide)
      rfl).2.2.2 10 rfl (by norm_num [MIN_BET]) (by norm_num [MAX_BET])⟩

/-! ### Claim C3 -/

theorem playStage_tails (serverSeed : String) (b m : ℚ) (clientSeed : Option String)
    (nonce : Nat) (hm1 : ¬ m < MIN_MULTIPLIER) :
    ∃ r, playStage serverSeed b m sTails clientSeed nonce = HandlerOut.success r ∧
      r.did_win = false ∧ r.payout = 0 := by
  have hm0 : (0 : ℚ) < m := by
    have := not_lt.mp hm1
    simp only [MIN_MULTIPLIER] at this
    linarith
  simp only [playStage]
  set roll := generateRandom01 (strBytes serverSeed) (strBytes (clientSeed.getD undefinedStr))
    nonce with hrolldef
  have hsb : (("heads" : String) == sTails) = false := by with_unfolding_all decide
  have hdw : (decide (roll < RTP / m) &&
      ((if roll < 1 / 2 then "heads" else "tails") == sTails)) = false := by
    by_cases hlt : roll < 1 / 2
    · rw [if_pos hlt, hsb]
      exact Bool.and_false _
    · have hge : RTP / m ≤ 1 / 2 := by
        rw [div_le_iff₀ hm0]
        have := not_lt.mp hm1
        simp only [MIN_MULTIPLIER] at this
        simp only [RTP]
        linarith
      have hnw : ¬ (roll < RTP / m) := not_lt.mpr (le_trans hge (not_lt.mp hlt))
      rw [decide_eq_false hnw]
      exact Bool.false_and _
  refine ⟨_, rfl, hdw, ?_⟩
  show round2 (if (decide (roll < RTP / m) &&
      ((if roll < 1 / 2 then "heads" else "tails") == sTails)) = true then b * m else 0) = 0
  rw [hdw]
  simp [round2_zero]

/-- C3.  Every admitted request whose `player_choice` is "tails" loses:
validation forces `multiplier ≥ 1.96`, so `winChance = 0.98 / multiplier ≤
0.5`; winning would require both `roll < winChance` and `coin_side =
"tails"` (i.e. `roll ≥ 0.5`), which is unsatisfiable, so the response has
`did_win = false` and `payout = 0`. -/
theorem tails_never_wins (serverSeed : String) (st : PState) (ev : Event) (req : Req)
    (b m : ℚ)
    (hm : ev.httpMethod = "POST")
    (hrl : (checkRateLimit st.store (getClientId ev.forwardedFor ev.clientIp) ev.now).1 = true)
    (hb : ev.body = some req)
    (hbet : req.bet = some b) (hb1 : ¬ b < MIN_BET) (hb2 : ¬ MAX_BET < b)
    (hmul : req.multiplier = some m) (hm1 : ¬ m < MIN_MULTIPLIER) (hm2 : ¬ MAX_MULTIPLIER < m)
    (hpc : req.player_choice = some sTails) :
    ∃ r, (handler serverSeed st ev).1 = HandlerOut.success r ∧
      r.did_win = false ∧ r.payout = 0 := by
  rw [handler_admits_fst serverSeed st ev req hm hrl hb, hbet, hmul, hpc]
  rw [betStage_ok serverSeed b (some m) (some sTails) req.client_seed
      (st.nonceCounter + 1) hb1 hb2]
  rw [multStage_ok serverSeed b m (some sTails) req.client_seed
      (st.nonceCounter + 1) hm1 hm2]
  rw [choiceStage_valid serverSeed b m sTails req.client_seed (st.nonceCounter + 1)
      (by decide) (by decide)]
  exact playStage_tails serverSeed b m req.client_seed (st.nonceCounter + 1) hm1

/-- C3, witness at a concrete tails wager (bet 10, multiplier 2, seed "a"). -/
theorem tails_never_wins_witness :
    ∃ r, (handler SERVER_SEED ⟨0, []⟩ (evOf reqTails)).1 = HandlerOut.success r ∧
      r.did_win = false ∧ r.payout = 0 :=
  tails_never_wins SERVER_SEED ⟨0, []⟩ (evOf reqTails) reqTails 10 2 rfl (by decide) rfl rfl
    (by norm_num [MIN_BET]) (by norm_num [MAX_BET]) rfl (by norm_num [MIN_MULTIPLIER])
    (by norm_num [MAX_MULTIPLIER]) rfl

/-! ### Claim C7 -/

theorem playStage_win_pay (serverSeed : String) (b m : ℚ) (pc : String)
    (clientSeed : Option String) (nonce : Nat)
    (hb1 : ¬ b < MIN_BET) (hm1 : ¬ m < MIN_MULTIPLIER) :
    ∃ r, playStage serverSeed b m pc clientSeed nonce = HandlerOut.success r ∧
      (r.did_win = true → r.payout = round2 (b * m) ∧ 0 < r.payout) := by
  simp only [playStage]
  set roll := generateRandom01 (strBytes serverSeed) (strBytes (clientSeed.getD undefinedStr))
    nonce with hrolldef
  refine ⟨_, rfl, ?_⟩
  intro hdw
  replace hdw : (decide (roll < RTP / m) &&
      ((if roll < 1 / 2 then "heads" else "tails") == pc)) = true := hdw
  have hb' : (10 : ℚ) / 100 ≤ b := by
    have := not_lt.mp hb1
    simpa [MIN_BET] using this
  have hm' : (196 : ℚ) / 100 ≤ m := by
    have := not_lt.mp hm1
    simpa [MIN_MULTIPLIER] using this
  have h20 : (20 : ℤ) ≤ ⌊b * m * 100 + 1 / 2⌋ := by
    apply Int.le_floor.mpr
    push_cast
    nlinarith
  have hpos : 0 < round2 (b * m) := by
    simp only [round2]
    apply div_pos ?_ (by norm_num)
    calc (0 : ℚ) < 20 := by norm_num
      _ ≤ ((⌊b * m * 100 + 1 / 2⌋ : ℤ) : ℚ) := by exact_mod_cast h20
  constructor
  · show round2 (if (decide (roll < RTP / m) &&
        ((if roll < 1 / 2 then "heads" else "tails") == pc)) = true then b * m else 0) =
      round2 (b * m)
    rw [hdw]
    simp
  · show 0 < round2 (if (decide (roll < RTP / m) &&
        ((if roll < 1 / 2 then "heads" else "tails") == pc)) = true then b * m else 0)
    rw [hdw]
    simpa using hpos

/-- C7, counterexample.  A winning `base_bet` response does not carry
`payout: 0`: the concrete winning request (bet 10, multiplier 2, client
seed "b") is answered 200 with `did_win: true` and `payout: 20`. -/
theorem win_pays_nonzero_cx :
    (handler SERVER_SEED ⟨0, []⟩ (evOf reqWinB)).1 =
      HandlerOut.success ⟨true, true, true, 20,
        ((6396860829559593311 : Nat) : ℚ) / 16 ^ 16, 49 / 100,
        "d483f767ba1a75110fd433dad1c88b449f47e4b5556df30eb5eaf594f61700aa", 1, "heads"⟩ ∧
    (20 : ℚ) ≠ 0 :=
  ⟨run_win_b, by norm_num⟩

/-- C7 (amended).  A winning `base_bet` response pays immediately: its
`payout` field equals `round2(bet × multiplier)` and is strictly positive
(there is no ladder session and no `cash_out` step in the code). -/
theorem win_payout_immediate (serverSeed : String) (st : PState) (ev : Event) (req : Req)
    (b m : ℚ) (pc : String)
    (hm : ev.httpMethod = "POST")
    (hrl : (checkRateLimit st.store (getClientId ev.forwardedFor ev.clientIp) ev.now).1 = true)
    (hb : ev.body = some req)
    (hbet : req.bet = some b) (hb1 : ¬ b < MIN_BET) (hb2 : ¬ MAX_BET < b)
    (hmul : req.multiplier = some m) (hm1 : ¬ m < MIN_MULTIPLIER) (hm2 : ¬ MAX_MULTIPLIER < m)
    (hpc : req.player_choice = some pc) (hpc1 : ¬ pc = "")
    (hpc2 : pc ∈ (["heads", "tails"] : List String)) :
    ∃ r, (handler serverSeed st ev).1 = HandlerOut.success r ∧
      (r.did_win = true → r.payout = round2 (b * m) ∧ 0 < r.payout) := by
  rw [handler_admits_fst serverSeed st ev req hm hrl hb, hbet, hmul, hpc]
  rw [betStage_ok serverSeed b (some m) (some pc) req.client_seed
      (st.nonceCounter + 1) hb1 hb2]
  rw [multStage_ok serverSeed b m (some pc) req.client_seed
      (st.nonceCounter + 1) hm1 hm2]
  rw [choiceStage_valid serverSeed b m pc req.client_seed (st.nonceCounter + 1) hpc1 hpc2]
  exact playStage_win_pay serverSeed b m pc req.client_seed (st.nonceCounter + 1) hb1 hm1

/-- C7, witness for the amended theorem at the concrete winning request. -/
theorem win_payout_immediate_witness :
    ∃ r, (handler SERVER_SEED ⟨0, []⟩ (evOf reqWinB)).1 = HandlerOut.success r ∧
      (r.did_win = true → r.payout = round2 ((10 : ℚ) * 2) ∧ 0 < r.payout) :=
  win_payout_immediate SERVER_SEED ⟨0, []⟩ (evOf reqWinB) reqWinB 10 2 sHeads rfl (by decide)
    rfl rfl (by norm_num [MIN_BET]) (by norm_num [MAX_BET]) rfl (by norm_num [MIN_MULTIPLIER])
    (by norm_num [MAX_MULTIPLIER]) rfl (by decide) (by decide)

/-! ### Claim C6 -/

/-- C6.  The rate limiter prunes the client's bucket to timestamps within
the last `W = 2000` ms and then: with at least `N = 5` remaining it denies
without recording the request (and an admitted POST event from that client
is answered 429 with the state unchanged); otherwise it appends `now` and
allows.  Consequently a client whose bucket already holds `N` in-window
timestamps is denied, and once all recorded timestamps are at least `W` ms
old the next request is allowed. -/
theorem rate_limiter_spec (serverSeed : String) (store : Store) (cid : String) (now : Nat) :
    (RATE_LIMIT_MAX ≤ (((lookupStore store cid).getD []).filter
        (fun time => now - time < RATE_LIMIT_WINDOW)).length →
      checkRateLimit store cid now = (false, store)) ∧
    ((((lookupStore store cid).getD []).filter
        (fun time => now - time < RATE_LIMIT_WINDOW)).length < RATE_LIMIT_MAX →
      checkRateLimit store cid now = (true, insertStore store cid
        ((((lookupStore store cid).getD []).filter
          (fun time => now - time < RATE_LIMIT_WINDOW)) ++ [now]))) ∧
    (∀ st ev, st.store = store → ev.httpMethod = "POST" →
      getClientId ev.forwardedFor ev.clientIp = cid → ev.now = now →
      RATE_LIMIT_MAX ≤ (((lookupStore store cid).getD []).filter
        (fun time => now - time < RATE_LIMIT_WINDOW)).length →
      handler serverSeed st ev =
        (HandlerOut.error 429 "Too many requests. Please slow down.", st)) ∧
    (∀ ts, lookupStore store cid = some ts → RATE_LIMIT_MAX ≤ ts.length →
      (∀ t ∈ ts, now - t < RATE_LIMIT_WINDOW) → (checkRateLimit store cid now).1 = false) ∧
    (∀ ts, lookupStore store cid = some ts → (∀ t ∈ ts, RATE_LIMIT_WINDOW ≤ now - t) →
      (checkRateLimit store cid now).1 = true) := by
  have hP1 : RATE_LIMIT_MAX ≤ (((lookupStore store cid).getD []).filter
      (fun time => now - time < RATE_LIMIT_WINDOW)).length →
      checkRateLimit store cid now = (false, store) := by
    intro h
    simp only [checkRateLimit]
    rw [if_pos h]
  have hP2 : (((lookupStore store cid).getD []).filter
      (fun time => now - time < RATE_LIMIT_WINDOW)).length < RATE_LIMIT_MAX →
      checkRateLimit store cid now = (true, insertStore store cid
        ((((lookupStore store cid).getD []).filter
          (fun time => now - time < RATE_LIMIT_WINDOW)) ++ [now])) := by
    intro h
    simp only [checkRateLimit]
    rw [if_neg (Nat.not_le.mpr h)]
  refine ⟨hP1, hP2, ?_, ?_, ?_⟩
  · intro st ev h1 h2 h3 h4 h5
    apply handler_denied serverSeed st ev h2
    rw [h1, h3, h4, hP1 h5]
  · intro ts hts hlen hall
    have hreq : ((lookupStore store cid).getD []) = ts := by rw [hts]; rfl
    have hfil : ts.filter (fun time => now - time < RATE_LIMIT_WINDOW) = ts :=
      List.filter_eq_self.mpr (fun a ha => decide_eq_true (hall a ha))
    have hge : RATE_LIMIT_MAX ≤ (((lookupStore store cid).getD []).filter
        (fun time => now - time < RATE_LIMIT_WINDOW)).length := by
      rw [hreq, hfil]
      exact hlen
    rw [hP1 hge]
  · intro ts hts hall
    have hreq : ((lookupStore store cid).getD []) = ts := by rw [hts]; rfl
    have hfil : ts.filter (fun time => now - time < RATE_LIMIT_WINDOW) = [] := by
      rw [List.filter_eq_nil_iff]
      intro a ha
      simpa using Nat.not_lt.mpr (hall a ha)
    have hlt : (((lookupStore store cid).getD []).filter
        (fun time => now - time < RATE_LIMIT_WINDOW)).length < RATE_LIMIT_MAX := by
      rw [hreq, hfil]
      simp [RATE_LIMIT_MAX]
    rw [hP2 hlt]

/-- C6, witness: with five in-window timestamps the sixth request at time 15
is denied and an admitted POST event is answered 429 with untouched state;
at time 3000 (window elapsed) the same bucket admits the request and
records it. -/
theorem rate_limiter_spec_witness :
    checkRateLimit storeW sClient 15 = (false, storeW) ∧
    handler SERVER_SEED ⟨7, storeW⟩ ⟨"POST", none, some sClient, 15, some reqBadBet⟩ =
      (HandlerOut.error 429 "Too many requests. Please slow down.", ⟨7, storeW⟩) ∧
    (checkRateLimit storeW sClient 3000).1 = true :=
  ⟨(rate_limiter_spec SERVER_SEED storeW sClient 15).1 (by decide),
   (rate_limiter_spec SERVER_SEED storeW sClient 15).2.2.1 ⟨7, storeW⟩
      ⟨"POST", none, some sClient, 15, some reqBadBet⟩ rfl rfl (by decide) rfl (by decide),
   (rate_limiter_spec SERVER_SEED storeW sClient 3000).2.2.2.2 [10, 11, 12, 13, 14]
      (by decide) (by decide)⟩

end CoinClash

